import Mathlib

/-!
A shallow embedding of `src/main.py` (a Flask HTTP service with Prometheus
metrics) and proofs about its request handlers and its metrics registry.

Modelling choices, stated once:

* JSON values are the inductive `Json`; numbers are rationals.
* `datetime.utcnow()` is a free `DateTime` parameter threaded to each handler;
  `DateTime.isoformat` embeds Python's `datetime.isoformat` for in-range
  fields.
* The Prometheus client library is modelled by an explicit registry state:
  counters and histograms are association lists keyed by metric name plus
  label values, `Counter.labels(...).inc()` is `incCounter`, and
  `Histogram.labels(...).observe(v)` is `observeHist` (the raw observation
  stream, which determines sum, count and buckets). `generate_latest` is a
  deterministic snapshot of the registry (`render`).
* A full request cycle is `handleRequest`: the Flask `before_request` hook
  records a start time, the handler runs, and the `after_request` hook
  observes the request latency and increments the request counter. The
  measured latency `time.time() - request.start_time` is a free parameter.
* The outcome of `request.get_json()` in the predict handler is the
  inductive `JsonResult`: `parsed j` when a JSON body parses to `j`,
  `noData` when `get_json` returns `None` (absent body / no JSON content
  type), `parseError` when `get_json` raises an exception (a present body
  that fails JSON parsing), which the handler's `except Exception` catches.
-/

/-- A JSON value; numbers are modelled as rationals. -/
inductive Json where
  | null : Json
  | bool : Bool → Json
  | num : Rat → Json
  | str : String → Json
  | arr : List Json → Json
  | obj : List (String × Json) → Json

/-- Python truthiness of a JSON-decoded value, as tested by
`if not data:` in the predict handler (line 98 of `src/main.py`). -/
def Json.truthy : Json → Bool
  | .null => false
  | .bool b => b
  | .num q => q != 0
  | .str s => !s.isEmpty
  | .arr xs => !xs.isEmpty
  | .obj kvs => !kvs.isEmpty

/-- Lookup of a field in a JSON object key list. -/
def lookupField : List (String × Json) → String → Option Json
  | [], _ => none
  | (k, v) :: rest, key => if k = key then some v else lookupField rest key

/-- Field access on a JSON value: `some v` when the value is an object with
the field, `none` otherwise. -/
def Json.getField : Json → String → Option Json
  | .obj kvs, key => lookupField kvs key
  | _, _ => none

/-- A naive datetime as produced by `datetime.utcnow()`. -/
structure DateTime where
  year : Nat
  month : Nat
  day : Nat
  hour : Nat
  minute : Nat
  second : Nat
  microsecond : Nat

/-- The field ranges Python's `datetime` guarantees by construction. -/
def DateTime.valid (t : DateTime) : Prop :=
  1 ≤ t.year ∧ t.year ≤ 9999 ∧ 1 ≤ t.month ∧ t.month ≤ 12 ∧
  1 ≤ t.day ∧ t.day ≤ 31 ∧ t.hour ≤ 23 ∧ t.minute ≤ 59 ∧
  t.second ≤ 59 ∧ t.microsecond ≤ 999999

instance (t : DateTime) : Decidable t.valid := by
  unfold DateTime.valid; infer_instance

/-- The decimal digit character for `n` (meaningful for `n ≤ 9`). -/
def digitChar (n : Nat) : Char := Char.ofNat (48 + n)

/-- Two zero-padded decimal digits, as Python's `%02d` prints an in-range
datetime field. -/
def pad2 (n : Nat) : List Char := [digitChar (n / 10), digitChar (n % 10)]

/-- Four zero-padded decimal digits, as Python's `%04d` prints the year. -/
def pad4 (n : Nat) : List Char :=
  [digitChar (n / 1000), digitChar (n / 100 % 10),
   digitChar (n / 10 % 10), digitChar (n % 10)]

/-- Six zero-padded decimal digits, as Python prints the microsecond. -/
def pad6 (n : Nat) : List Char :=
  [digitChar (n / 100000), digitChar (n / 10000 % 10),
   digitChar (n / 1000 % 10), digitChar (n / 100 % 10),
   digitChar (n / 10 % 10), digitChar (n % 10)]

/-- Python's `datetime.isoformat` on a naive datetime:
`YYYY-MM-DDTHH:MM:SS`, with `.ffffff` appended when the microsecond is
nonzero. -/
def DateTime.isoformat (t : DateTime) : String :=
  String.mk
    (pad4 t.year ++ '-' :: pad2 t.month ++ '-' :: pad2 t.day ++
     'T' :: pad2 t.hour ++ ':' :: pad2 t.minute ++ ':' :: pad2 t.second ++
     (if t.microsecond = 0 then [] else '.' :: pad6 t.microsecond))

/-- Acceptance of the optional fractional-seconds part of an ISO-8601
timestamp: empty, or a dot followed by one to six digits. -/
def fracPartOk : List Char → Bool
  | [] => true
  | c :: frac =>
    c == '.' && !frac.isEmpty && decide (frac.length ≤ 6) && frac.all Char.isDigit

/-- Well-formedness of an ISO-8601 basic date-time character sequence:
`DDDD-DD-DDTDD:DD:DD` with an optional fractional-seconds part. -/
def isIso8601Chars : List Char → Bool
  | y1 :: y2 :: y3 :: y4 :: c1 :: m1 :: m2 :: c2 :: d1 :: d2 :: c3 ::
    h1 :: h2 :: c4 :: n1 :: n2 :: c5 :: s1 :: s2 :: rest =>
    y1.isDigit && y2.isDigit && y3.isDigit && y4.isDigit &&
    c1 == '-' && m1.isDigit && m2.isDigit && c2 == '-' &&
    d1.isDigit && d2.isDigit && c3 == 'T' &&
    h1.isDigit && h2.isDigit && c4 == ':' &&
    n1.isDigit && n2.isDigit && c5 == ':' &&
    s1.isDigit && s2.isDigit && fracPartOk rest
  | _ => false

/-- Well-formedness of an ISO-8601 date-time string. -/
def isIso8601 (s : String) : Bool := isIso8601Chars s.data

/-- The identity of a metric series: metric name plus label values
(the Prometheus identity `(name, label-value tuple)`). -/
structure SeriesKey where
  name : String
  labels : List (String × String)
deriving DecidableEq, Repr

/-- The process-wide metrics registry: counter series and histogram series
(a histogram series is stored as its stream of observations). -/
structure Registry where
  counters : List (SeriesKey × Nat)
  histograms : List (SeriesKey × List Rat)

/-- The registry at process start: no series exists yet. -/
def emptyRegistry : Registry := ⟨[], []⟩

/-- Lookup of a counter series in the registry's counter list. -/
def lookupCounter : List (SeriesKey × Nat) → SeriesKey → Option Nat
  | [], _ => none
  | (k, v) :: rest, key => if k = key then some v else lookupCounter rest key

/-- Lookup of a histogram series in the registry's histogram list. -/
def lookupHist : List (SeriesKey × List Rat) → SeriesKey → Option (List Rat)
  | [], _ => none
  | (k, v) :: rest, key => if k = key then some v else lookupHist rest key

/-- The value of a counter series; an absent series reads as zero. -/
def counterValue (r : Registry) (k : SeriesKey) : Nat :=
  (lookupCounter r.counters k).getD 0

/-- The observations of a histogram series; an absent series reads as the
empty stream. -/
def histValue (r : Registry) (k : SeriesKey) : List Rat :=
  (lookupHist r.histograms k).getD []

/-- Increment in a counter list: `Counter.labels(...).inc()` creates the
series implicitly (at zero) on first use, then adds one. -/
def incIn : List (SeriesKey × Nat) → SeriesKey → List (SeriesKey × Nat)
  | [], k => [(k, 1)]
  | (k', v) :: rest, k =>
    if k' = k then (k', v + 1) :: rest else (k', v) :: incIn rest k

/-- Observation in a histogram list: `Histogram.labels(...).observe(v)`
creates the series implicitly on first use, then appends the observation. -/
def obsIn : List (SeriesKey × List Rat) → SeriesKey → Rat → List (SeriesKey × List Rat)
  | [], k, v => [(k, [v])]
  | (k', vs) :: rest, k, v =>
    if k' = k then (k', vs ++ [v]) :: rest else (k', vs) :: obsIn rest k v

/-- `Counter.labels(...).inc()` on the registry. -/
def incCounter (k : SeriesKey) (r : Registry) : Registry :=
  ⟨incIn r.counters k, r.histograms⟩

/-- `Histogram.labels(...).observe(v)` on the registry. -/
def observeHist (k : SeriesKey) (v : Rat) (r : Registry) : Registry :=
  ⟨r.counters, obsIn r.histograms k v⟩

/-- A mutation of the metrics registry, as performed by the program's
request processing: a counter increment or a histogram observation. -/
inductive RegOp where
  | incCounterOp : SeriesKey → RegOp
  | observeHistOp : SeriesKey → Rat → RegOp

/-- Application of one registry operation. -/
def applyOp (r : Registry) : RegOp → Registry
  | .incCounterOp k => incCounter k r
  | .observeHistOp k v => observeHist k v r

/-- Application of a sequence of registry operations. -/
def applyOps (r : Registry) (ops : List RegOp) : Registry :=
  ops.foldl applyOp r

/-- The deterministic snapshot `generate_latest` serializes: every series
with its current value, one series per label combination. -/
structure Exposition where
  counters : List (SeriesKey × Nat)
  histograms : List (SeriesKey × List Rat)
deriving DecidableEq

/-- The metrics exposition rendered from the registry by `generate_latest`:
a pure read of the registry state. -/
def render (r : Registry) : Exposition := ⟨r.counters, r.histograms⟩

/-- The body of an HTTP response: a JSON document or a metrics-text
exposition. -/
inductive Body where
  | json : Json → Body
  | text : Exposition → Body

/-- An HTTP response: status code and body. -/
structure Response where
  status : Nat
  body : Body

/-- The outcome of `request.get_json()` in the predict handler:
a successfully parsed body, a `None` result (absent body or no JSON
content type), or a raised parse exception (a present body that is not
parsable as JSON). -/
inductive JsonResult where
  | parsed : Json → JsonResult
  | noData : JsonResult
  | parseError : JsonResult

/-- An inbound HTTP request to one of the service's routes; the predict
route carries the outcome of decoding its body. -/
inductive Req where
  | health : Req
  | ready : Req
  | metrics : Req
  | predictReq : JsonResult → Req
  | index : Req

/-- The HTTP method of a request, as seen by `request.method`. -/
def Req.method : Req → String
  | .predictReq _ => "POST"
  | _ => "GET"

/-- The Flask endpoint name of a request, as seen by `request.endpoint`
(the handler function's name). -/
def Req.endpoint : Req → String
  | .health => "health"
  | .ready => "ready"
  | .metrics => "metrics"
  | .predictReq _ => "predict"
  | .index => "index"

/-- The response body built by the health handler (lines 57-64). -/
def healthBody (t : DateTime) : Json :=
  .obj [("status", .str "healthy"),
        ("timestamp", .str t.isoformat),
        ("version", .str "1.0.0")]

/-- The health handler: always 200 with the health body. -/
def healthHandler (t : DateTime) : Response :=
  ⟨200, .json (healthBody t)⟩

/-- The readiness checks dictionary built by the ready handler
(lines 69-73): both checks are the literal `True`. -/
def readyChecks : List (String × Bool) :=
  [("model_loaded", true), ("aws_connection", true)]

/-- The JSON rendering of a checks dictionary. -/
def checksToJson (checks : List (String × Bool)) : Json :=
  .obj (checks.map fun p => (p.1, .bool p.2))

/-- The branch logic of the ready handler (lines 75-86), as a function of
the checks dictionary: 200 "ready" when `all(checks.values())`, otherwise
503 "not ready", either way echoing the checks and a timestamp. -/
def readyResponse (checks : List (String × Bool)) (t : DateTime) : Response :=
  if checks.all (fun p => p.2) then
    ⟨200, .json (.obj [("status", .str "ready"),
                       ("checks", checksToJson checks),
                       ("timestamp", .str t.isoformat)])⟩
  else
    ⟨503, .json (.obj [("status", .str "not ready"),
                       ("checks", checksToJson checks),
                       ("timestamp", .str t.isoformat)])⟩

/-- The ready handler: the branch logic applied to the hardcoded checks. -/
def readyHandler (t : DateTime) : Response :=
  readyResponse readyChecks t

/-- The series key of the predictions counter `predictions_total` with
label `model="v1"` (line 27 and line 112). -/
def predictionsKey : SeriesKey :=
  ⟨"predictions_total", [("model", "v1")]⟩

/-- The placeholder prediction result (lines 105-110). -/
def predictResult (t : DateTime) : Json :=
  .obj [("prediction", .str "example_result"),
        ("confidence", .num (0.95 : Rat)),
        ("model_version", .str "1.0.0"),
        ("timestamp", .str t.isoformat)]

/-- The predict handler (lines 93-119): `get_json`, the falsiness test,
the placeholder result with the predictions-counter increment, and the
`except Exception` branch returning 500. -/
def predictHandler (jr : JsonResult) (t : DateTime) (reg : Registry) :
    Response × Registry :=
  match jr with
  | .parseError =>
    (⟨500, .json (.obj [("error", .str "Internal server error")])⟩, reg)
  | .noData =>
    (⟨400, .json (.obj [("error", .str "No input data provided")])⟩, reg)
  | .parsed j =>
    if j.truthy then
      (⟨200, .json (predictResult t)⟩, incCounter predictionsKey reg)
    else
      (⟨400, .json (.obj [("error", .str "No input data provided")])⟩, reg)

/-- The response body of the index handler (lines 121-133). -/
def indexBody : Json :=
  .obj [("service", .str "iNFINITE AI 2025"),
        ("version", .str "1.0.0"),
        ("endpoints", .obj [("health", .str "/health"),
                            ("ready", .str "/ready"),
                            ("metrics", .str "/metrics"),
                            ("predict", .str "/predict (POST)")])]

/-- Dispatch of a request to its route handler. Only the predict handler
mutates the registry; the metrics handler renders the registry as it
stands when the handler runs. -/
def dispatch (reg : Registry) (req : Req) (t : DateTime) :
    Response × Registry :=
  match req with
  | .health => (healthHandler t, reg)
  | .ready => (readyHandler t, reg)
  | .metrics => (⟨200, .text (render reg)⟩, reg)
  | .predictReq jr => predictHandler jr t reg
  | .index => (⟨200, .json indexBody⟩, reg)

/-- The key of the request counter series `http_requests_total` for a
request and its response status (lines 49-53); Prometheus stringifies the
numeric status label value. -/
def reqCounterKey (req : Req) (status : Nat) : SeriesKey :=
  ⟨"http_requests_total",
   [("method", req.method), ("endpoint", req.endpoint),
    ("status", toString status)]⟩

/-- The key of the latency histogram series `http_request_duration_seconds`
for a request (lines 43-46). -/
def latencyKey (req : Req) : SeriesKey :=
  ⟨"http_request_duration_seconds",
   [("method", req.method), ("endpoint", req.endpoint)]⟩

/-- The `after_request` hook (lines 39-55): observe the request latency,
then increment the request counter labeled by method, endpoint and status.
The `hasattr` guard always holds because `before_request` set the start
time. -/
def afterRequest (req : Req) (status : Nat) (latency : Rat)
    (reg : Registry) : Registry :=
  incCounter (reqCounterKey req status)
    (observeHist (latencyKey req) latency reg)

/-- A full request cycle: `before_request` records the start time, the
route handler runs, `after_request` updates the metrics and returns the
response unchanged. The measured latency is a free parameter. -/
def handleRequest (reg : Registry) (req : Req) (t : DateTime)
    (latency : Rat) : Response × Registry :=
  let hr := dispatch reg req t
  (hr.1, afterRequest req hr.1.status latency hr.2)

/-- A fixed sample datetime used to instantiate universally quantified
time parameters in concrete evaluations. -/
def t0 : DateTime := ⟨2025, 10, 12, 0, 0, 0, 0⟩

/-- Whether a `get_json` outcome is accepted by the predict handler: a
parsed body that is Python-truthy. -/
def JsonResult.accepted : JsonResult → Bool
  | .parsed j => j.truthy
  | _ => false

theorem lookupCounter_incIn_self (l : List (SeriesKey × Nat)) (k : SeriesKey) :
    lookupCounter (incIn l k) k = some ((lookupCounter l k).getD 0 + 1) := by
  induction l with
  | nil => simp [incIn, lookupCounter]
  | cons p rest ih =>
    obtain ⟨k', v⟩ := p
    by_cases h : k' = k
    · subst h
      simp [incIn, lookupCounter]
    · simp [incIn, lookupCounter, h, ih]

theorem lookupCounter_incIn_ne (l : List (SeriesKey × Nat)) (k k' : SeriesKey)
    (h : k' ≠ k) : lookupCounter (incIn l k) k' = lookupCounter l k' := by
  induction l with
  | nil => simp [incIn, lookupCounter, Ne.symm h]
  | cons p rest ih =>
    obtain ⟨ka, v⟩ := p
    by_cases hk : ka = k
    · subst hk
      simp [incIn, lookupCounter, Ne.symm h]
    · by_cases hk' : ka = k'
      · subst hk'
        simp [incIn, lookupCounter, hk]
      · simp [incIn, lookupCounter, hk, hk', ih]

theorem lookupHist_obsIn_self (l : List (SeriesKey × List Rat))
    (k : SeriesKey) (v : Rat) :
    lookupHist (obsIn l k v) k = some ((lookupHist l k).getD [] ++ [v]) := by
  induction l with
  | nil => simp [obsIn, lookupHist]
  | cons p rest ih =>
    obtain ⟨k', vs⟩ := p
    by_cases h : k' = k
    · subst h
      simp [obsIn, lookupHist]
    · simp [obsIn, lookupHist, h, ih]

theorem lookupHist_obsIn_ne (l : List (SeriesKey × List Rat))
    (k k' : SeriesKey) (v : Rat) (h : k' ≠ k) :
    lookupHist (obsIn l k v) k' = lookupHist l k' := by
  induction l with
  | nil => simp [obsIn, lookupHist, Ne.symm h]
  | cons p rest ih =>
    obtain ⟨ka, vs⟩ := p
    by_cases hk : ka = k
    · subst hk
      simp [obsIn, lookupHist, Ne.symm h]
    · by_cases hk' : ka = k'
      · subst hk'
        simp [obsIn, lookupHist, hk]
      · simp [obsIn, lookupHist, hk, hk', ih]

theorem counterValue_incCounter_self (r : Registry) (k : SeriesKey) :
    counterValue (incCounter k r) k = counterValue r k + 1 := by
  simp [counterValue, incCounter, lookupCounter_incIn_self]

theorem counterValue_incCounter_ne (r : Registry) (k k' : SeriesKey)
    (h : k' ≠ k) : counterValue (incCounter k r) k' = counterValue r k' := by
  simp [counterValue, incCounter, lookupCounter_incIn_ne _ _ _ h]

theorem counterValue_observeHist (r : Registry) (k k' : SeriesKey) (v : Rat) :
    counterValue (observeHist k v r) k' = counterValue r k' := rfl

theorem histValue_observeHist_self (r : Registry) (k : SeriesKey) (v : Rat) :
    histValue (observeHist k v r) k = histValue r k ++ [v] := by
  simp [histValue, observeHist, lookupHist_obsIn_self]

theorem histValue_observeHist_ne (r : Registry) (k k' : SeriesKey) (v : Rat)
    (h : k' ≠ k) : histValue (observeHist k v r) k' = histValue r k' := by
  simp [histValue, observeHist, lookupHist_obsIn_ne _ _ _ _ h]

theorem histValue_incCounter (r : Registry) (k k' : SeriesKey) :
    histValue (incCounter k r) k' = histValue r k' := rfl

theorem isDigit_digitChar (n : Nat) (h : n ≤ 9) : (digitChar n).isDigit = true := by
  interval_cases n <;> decide

theorem isDigit_digitChar_mod10 (n : Nat) :
    (digitChar (n % 10)).isDigit = true :=
  isDigit_digitChar _ (by omega)

theorem isIso8601_isoformat (t : DateTime) (h : t.valid) :
    isIso8601 t.isoformat = true := by
  obtain ⟨h1, h2, h3, h4, h5, h6, h7, h8, h9, h10⟩ := h
  have hy : (digitChar (t.year / 1000)).isDigit = true :=
    isDigit_digitChar _ (by omega)
  have hmo : (digitChar (t.month / 10)).isDigit = true :=
    isDigit_digitChar _ (by omega)
  have hd : (digitChar (t.day / 10)).isDigit = true :=
    isDigit_digitChar _ (by omega)
  have hh : (digitChar (t.hour / 10)).isDigit = true :=
    isDigit_digitChar _ (by omega)
  have hmi : (digitChar (t.minute / 10)).isDigit = true :=
    isDigit_digitChar _ (by omega)
  have hs : (digitChar (t.second / 10)).isDigit = true :=
    isDigit_digitChar _ (by omega)
  have hmc : (digitChar (t.microsecond / 100000)).isDigit = true :=
    isDigit_digitChar _ (by omega)
  rcases eq_or_ne t.microsecond 0 with hm | hm
  · simp [isIso8601, DateTime.isoformat, isIso8601Chars, pad4, pad2, hm,
      fracPartOk, isDigit_digitChar_mod10, hy, hmo, hd, hh, hmi, hs]
  · simp [isIso8601, DateTime.isoformat, isIso8601Chars, pad4, pad2, pad6,
      hm, fracPartOk, isDigit_digitChar_mod10, hy, hmo, hd, hh, hmi, hs, hmc]

/-- C5: for every GET /health request, in every reachable process state
(any registry contents, any current time, any measured latency), the
response status is 200 and the body is the JSON object with status
"healthy", version "1.0.0" and a well-formed ISO-8601 timestamp. -/
theorem health_always_healthy (reg : Registry) (t : DateTime) (l : Rat)
    (hv : t.valid) :
    (handleRequest reg .health t l).1.status = 200 ∧
    (handleRequest reg .health t l).1.body = .json (healthBody t) ∧
    (healthBody t).getField "status" = some (.str "healthy") ∧
    (healthBody t).getField "version" = some (.str "1.0.0") ∧
    (healthBody t).getField "timestamp" = some (.str t.isoformat) ∧
    isIso8601 t.isoformat = true := by
  refine ⟨rfl, rfl, rfl, rfl, rfl, isIso8601_isoformat t hv⟩

/-- Witness for C5 at a concrete datetime and state. -/
theorem health_always_healthy_witness :
    t0.valid ∧
    (handleRequest emptyRegistry .health t0 0).1.status = 200 ∧
    isIso8601 t0.isoformat = true :=
  ⟨by decide,
   (health_always_healthy emptyRegistry t0 0 (by decide)).1,
   (health_always_healthy emptyRegistry t0 0 (by decide)).2.2.2.2.2⟩

/-- C9: the not-ready branch of the ready handler is unreachable: both
hardcoded checks are `true`, so every GET /ready request answers 200 with
status "ready" and both checks reported true; 503 is never produced. -/
theorem ready_503_unreachable (reg : Registry) (t : DateTime) (l : Rat) :
    (handleRequest reg .ready t l).1.status = 200 ∧
    (handleRequest reg .ready t l).1.body = .json (.obj
      [("status", .str "ready"),
       ("checks", .obj [("model_loaded", .bool true),
                        ("aws_connection", .bool true)]),
       ("timestamp", .str t.isoformat)]) :=
  ⟨rfl, rfl⟩

/-- C6: the response of the ready branch logic is a deterministic function
of the checks mapping: 200 with body status "ready" when every check is
true, 503 with body status "not ready" when some check is false, the body
echoing the checks either way; the actual GET /ready response is this
function applied to the hardcoded checks. -/
theorem ready_function_of_checks (checks : List (String × Bool))
    (reg : Registry) (t : DateTime) (l : Rat) :
    (handleRequest reg .ready t l).1 = readyResponse readyChecks t ∧
    (readyResponse checks t).status =
      (if checks.all (fun p => p.2) then 200 else 503) ∧
    (readyResponse checks t).body = .json (.obj
      [("status", .str (if checks.all (fun p => p.2) then "ready"
                        else "not ready")),
       ("checks", checksToJson checks),
       ("timestamp", .str t.isoformat)]) := by
  refine ⟨rfl, ?_, ?_⟩ <;>
    by_cases h : checks.all (fun p => p.2) <;> simp [readyResponse, h]

/-- C1 counterexample: the empty JSON object is a valid JSON object, yet a
POST /predict request carrying it is answered 400 (the handler tests Python
falsiness, and an empty dict is falsy), not 200. -/
theorem predict_empty_object_rejected :
    ¬ (handleRequest emptyRegistry (.predictReq (.parsed (.obj []))) t0 0).1.status = 200 ∧
    (handleRequest emptyRegistry (.predictReq (.parsed (.obj []))) t0 0).1.status = 400 ∧
    (handleRequest emptyRegistry (.predictReq (.parsed (.obj []))) t0 0).1.body =
      .json (.obj [("error", .str "No input data provided")]) :=
  ⟨by decide, rfl, rfl⟩

/-- C1 (amended): for every POST /predict request whose body is a valid
non-empty JSON object, the response status is 200 and the response body
carries all four fields prediction, confidence, model_version, timestamp,
with confidence 0.95 in the unit interval; in particular the prediction is
"example_result". -/
theorem predict_nonempty_object_ok (reg : Registry)
    (kvs : List (String × Json)) (t : DateTime) (l : Rat) (h : kvs ≠ []) :
    (handleRequest reg (.predictReq (.parsed (.obj kvs))) t l).1.status = 200 ∧
    (handleRequest reg (.predictReq (.parsed (.obj kvs))) t l).1.body =
      .json (predictResult t) ∧
    (predictResult t).getField "prediction" = some (.str "example_result") ∧
    (predictResult t).getField "confidence" = some (.num (0.95 : Rat)) ∧
    (predictResult t).getField "model_version" = some (.str "1.0.0") ∧
    (predictResult t).getField "timestamp" = some (.str t.isoformat) ∧
    (0 : Rat) ≤ 0.95 ∧ (0.95 : Rat) ≤ 1 := by
  have ht : Json.truthy (.obj kvs) = true := by
    cases kvs with
    | nil => exact absurd rfl h
    | cons p rest => rfl
  refine ⟨?_, ?_, rfl, rfl, rfl, rfl, by norm_num, by norm_num⟩ <;>
    simp [handleRequest, dispatch, predictHandler, ht]

/-- Witness for the amended C1 at the body of the end-to-end test,
the JSON object with the single field x = 1. -/
theorem predict_nonempty_object_ok_witness :
    ([(("x" : String), Json.num 1)] ≠ ([] : List (String × Json))) ∧
    (handleRequest emptyRegistry
      (.predictReq (.parsed (.obj [("x", .num 1)]))) t0 0).1.status = 200 ∧
    (predictResult t0).getField "prediction" = some (.str "example_result") ∧
    (predictResult t0).getField "confidence" = some (.num (0.95 : Rat)) :=
  ⟨by simp,
   (predict_nonempty_object_ok emptyRegistry [("x", .num 1)] t0 0 (by simp)).1,
   (predict_nonempty_object_ok emptyRegistry [("x", .num 1)] t0 0 (by simp)).2.2.1,
   (predict_nonempty_object_ok emptyRegistry [("x", .num 1)] t0 0 (by simp)).2.2.2.1⟩

/-- C2 counterexample: a POST /predict request whose body is present but not
parsable as JSON makes `get_json` raise; the handler's catch-all answers
500 with the internal-server-error body, not 400. -/
theorem predict_unparsable_body_500 :
    ¬ (handleRequest emptyRegistry (.predictReq .parseError) t0 0).1.status = 400 ∧
    (handleRequest emptyRegistry (.predictReq .parseError) t0 0).1.status = 500 ∧
    (handleRequest emptyRegistry (.predictReq .parseError) t0 0).1.body =
      .json (.obj [("error", .str "Internal server error")]) :=
  ⟨by decide, rfl, rfl⟩

/-- C2 (amended): a POST /predict request for which `get_json` yields no
data (absent body) is answered 400 with the no-input-data error object,
while one whose body fails JSON parsing (so `get_json` raises) is answered
500 with the internal-server-error object. -/
theorem predict_bad_body_responses (reg : Registry) (t : DateTime) (l : Rat) :
    (handleRequest reg (.predictReq .noData) t l).1.status = 400 ∧
    (handleRequest reg (.predictReq .noData) t l).1.body =
      .json (.obj [("error", .str "No input data provided")]) ∧
    (handleRequest reg (.predictReq .parseError) t l).1.status = 500 ∧
    (handleRequest reg (.predictReq .parseError) t l).1.body =
      .json (.obj [("error", .str "Internal server error")]) :=
  ⟨rfl, rfl, rfl, rfl⟩

theorem counterValue_applyOp_mono (r : Registry) (op : RegOp)
    (k : SeriesKey) : counterValue r k ≤ counterValue (applyOp r op) k := by
  cases op with
  | incCounterOp k' =>
    by_cases h : k = k'
    · subst h
      simp [applyOp, counterValue_incCounter_self]
    · simp [applyOp, counterValue_incCounter_ne _ _ _ h]
  | observeHistOp k' v => simp [applyOp, counterValue_observeHist]

theorem counterValue_applyOps_mono (ops : List RegOp) (r : Registry)
    (k : SeriesKey) : counterValue r k ≤ counterValue (applyOps r ops) k := by
  induction ops generalizing r with
  | nil => simp [applyOps]
  | cons op rest ih =>
    calc counterValue r k ≤ counterValue (applyOp r op) k :=
          counterValue_applyOp_mono r op k
      _ ≤ counterValue (applyOps (applyOp r op) rest) k := ih (applyOp r op)
      _ = counterValue (applyOps r (op :: rest)) k := rfl

/-- C7: across every sequence of registry operations the value of a counter
series never decreases; one increment adds exactly one; and the first
increment of an absent label combination creates the series holding one
(implicit creation at zero). -/
theorem counter_never_decreases (ops : List RegOp) (r : Registry)
    (k : SeriesKey) :
    counterValue r k ≤ counterValue (applyOps r ops) k ∧
    counterValue (applyOp r (.incCounterOp k)) k = counterValue r k + 1 ∧
    (lookupCounter r.counters k = none →
      lookupCounter (applyOp r (.incCounterOp k)).counters k = some 1) := by
  refine ⟨counterValue_applyOps_mono ops r k,
          counterValue_incCounter_self r k, ?_⟩
  intro hnone
  simp [applyOp, incCounter, lookupCounter_incIn_self, hnone]

/-- Witness for C7 on the empty registry and a concrete series key. -/
theorem counter_never_decreases_witness :
    lookupCounter emptyRegistry.counters ⟨"predictions_total", [("model", "v1")]⟩ = none ∧
    lookupCounter (applyOp emptyRegistry
      (.incCounterOp ⟨"predictions_total", [("model", "v1")]⟩)).counters
      ⟨"predictions_total", [("model", "v1")]⟩ = some 1 ∧
    counterValue emptyRegistry ⟨"predictions_total", [("model", "v1")]⟩ ≤
      counterValue (applyOps emptyRegistry
        [.incCounterOp ⟨"predictions_total", [("model", "v1")]⟩])
        ⟨"predictions_total", [("model", "v1")]⟩ :=
  ⟨rfl,
   (counter_never_decreases [] emptyRegistry
      ⟨"predictions_total", [("model", "v1")]⟩).2.2 rfl,
   (counter_never_decreases
      [.incCounterOp ⟨"predictions_total", [("model", "v1")]⟩]
      emptyRegistry ⟨"predictions_total", [("model", "v1")]⟩).1⟩

theorem dispatch_histValue (reg : Registry) (req : Req) (t : DateTime)
    (k : SeriesKey) : histValue (dispatch reg req t).2 k = histValue reg k := by
  cases req with
  | predictReq jr =>
    cases jr with
    | parsed j =>
      by_cases h : j.truthy <;>
        simp [dispatch, predictHandler, h, histValue_incCounter]
    | noData => rfl
    | parseError => rfl
  | health => rfl
  | ready => rfl
  | metrics => rfl
  | index => rfl

theorem dispatch_counterValue (reg : Registry) (req : Req) (t : DateTime)
    (k : SeriesKey) (h : k.name ≠ "predictions_total") :
    counterValue (dispatch reg req t).2 k = counterValue reg k := by
  have hne : k ≠ predictionsKey := by
    intro he
    exact h (by rw [he]; rfl)
  cases req with
  | predictReq jr =>
    cases jr with
    | parsed j =>
      by_cases ht : j.truthy <;>
        simp [dispatch, predictHandler, ht,
          counterValue_incCounter_ne _ _ _ hne]
    | noData => rfl
    | parseError => rfl
  | health => rfl
  | ready => rfl
  | metrics => rfl
  | index => rfl

theorem counterValue_afterRequest_self (req : Req) (s : Nat) (l : Rat)
    (reg : Registry) :
    counterValue (afterRequest req s l reg) (reqCounterKey req s) =
      counterValue reg (reqCounterKey req s) + 1 := by
  simp only [afterRequest]
  rw [counterValue_incCounter_self, counterValue_observeHist]

theorem counterValue_afterRequest_ne (req : Req) (s : Nat) (l : Rat)
    (reg : Registry) (k : SeriesKey) (h : k ≠ reqCounterKey req s) :
    counterValue (afterRequest req s l reg) k = counterValue reg k := by
  simp only [afterRequest]
  rw [counterValue_incCounter_ne _ _ _ h, counterValue_observeHist]

theorem histValue_afterRequest_self (req : Req) (s : Nat) (l : Rat)
    (reg : Registry) :
    histValue (afterRequest req s l reg) (latencyKey req) =
      histValue reg (latencyKey req) ++ [l] := by
  simp only [afterRequest]
  rw [histValue_incCounter, histValue_observeHist_self]

theorem histValue_afterRequest_ne (req : Req) (s : Nat) (l : Rat)
    (reg : Registry) (k : SeriesKey) (h : k ≠ latencyKey req) :
    histValue (afterRequest req s l reg) k = histValue reg k := by
  simp only [afterRequest]
  rw [histValue_incCounter, histValue_observeHist_ne _ _ _ _ h]

/-- C4: every handled request increments the request counter series keyed
by its method, endpoint and response status by exactly one, leaves every
other request-counter series untouched, appends its latency as exactly one
new observation to the histogram series keyed by its method and endpoint,
and leaves every other histogram series untouched. -/
theorem request_instrumented_once (reg : Registry) (req : Req)
    (t : DateTime) (l : Rat) :
    counterValue (handleRequest reg req t l).2
        (reqCounterKey req (handleRequest reg req t l).1.status) =
      counterValue reg (reqCounterKey req (handleRequest reg req t l).1.status) + 1 ∧
    (∀ k : SeriesKey, k.name = "http_requests_total" →
      k ≠ reqCounterKey req (handleRequest reg req t l).1.status →
      counterValue (handleRequest reg req t l).2 k = counterValue reg k) ∧
    histValue (handleRequest reg req t l).2 (latencyKey req) =
      histValue reg (latencyKey req) ++ [l] ∧
    (∀ k : SeriesKey, k ≠ latencyKey req →
      histValue (handleRequest reg req t l).2 k = histValue reg k) := by
  refine ⟨?_, ?_, ?_, ?_⟩
  · simp only [handleRequest]
    rw [counterValue_afterRequest_self,
      dispatch_counterValue _ _ _ _ (by simp [reqCounterKey])]
  · intro k hname hne
    simp only [handleRequest] at hne ⊢
    rw [counterValue_afterRequest_ne _ _ _ _ _ hne,
      dispatch_counterValue _ _ _ _ (by rw [hname]; decide)]
  · simp only [handleRequest]
    rw [histValue_afterRequest_self, dispatch_histValue]
  · intro k hne
    simp only [handleRequest]
    rw [histValue_afterRequest_ne _ _ _ _ _ hne, dispatch_histValue]

/-- Witness for C4 on a GET /health request against the empty registry. -/
theorem request_instrumented_once_witness :
    counterValue (handleRequest emptyRegistry .health t0 1).2
      (reqCounterKey .health 200) = 1 ∧
    counterValue (handleRequest emptyRegistry .health t0 1).2
      ⟨"http_requests_total",
       [("method", "GET"), ("endpoint", "ready"), ("status", "200")]⟩ = 0 ∧
    histValue (handleRequest emptyRegistry .health t0 1).2
      (latencyKey .health) = [1] ∧
    histValue (handleRequest emptyRegistry .health t0 1).2
      ⟨"http_request_duration_seconds",
       [("method", "GET"), ("endpoint", "ready")]⟩ = [] := by
  have h := request_instrumented_once emptyRegistry .health t0 1
  exact ⟨h.1,
    h.2.1 ⟨"http_requests_total",
      [("method", "GET"), ("endpoint", "ready"), ("status", "200")]⟩
      rfl (by decide),
    h.2.2.1,
    h.2.2.2 ⟨"http_request_duration_seconds",
      [("method", "GET"), ("endpoint", "ready")]⟩ (by decide)⟩

theorem predictionsKey_ne_reqCounterKey (req : Req) (s : Nat) :
    predictionsKey ≠ reqCounterKey req s := by
  intro h
  have hn : predictionsKey.name = (reqCounterKey req s).name := by rw [h]
  simp only [predictionsKey, reqCounterKey] at hn
  exact absurd hn (by decide)

/-- C10: a POST /predict request moves the predictions counter series with
label model = "v1" by exactly one when the response status is 200 and
leaves it unchanged otherwise (400 and 500 responses); the status is 200
precisely when `get_json` produced a Python-truthy value. -/
theorem predictions_counted_iff_200 (reg : Registry) (jr : JsonResult)
    (t : DateTime) (l : Rat) :
    counterValue (handleRequest reg (.predictReq jr) t l).2 predictionsKey =
      counterValue reg predictionsKey +
        (if (handleRequest reg (.predictReq jr) t l).1.status = 200
         then 1 else 0) ∧
    ((handleRequest reg (.predictReq jr) t l).1.status = 200 ↔
      jr.accepted = true) := by
  cases jr with
  | parsed j =>
    by_cases ht : j.truthy
    · constructor
      · simp only [handleRequest, dispatch, predictHandler, ht, if_true]
        rw [counterValue_afterRequest_ne _ _ _ _ _ (predictionsKey_ne_reqCounterKey _ _)]
        simp [counterValue_incCounter_self]
      · simp [handleRequest, dispatch, predictHandler, ht,
          JsonResult.accepted]
    · have ht' : j.truthy = false := by simpa using ht
      constructor
      · simp only [handleRequest, dispatch, predictHandler, ht', if_false,
          Bool.false_eq_true]
        rw [counterValue_afterRequest_ne _ _ _ _ _ (predictionsKey_ne_reqCounterKey _ _)]
        simp
      · simp [handleRequest, dispatch, predictHandler, ht',
          JsonResult.accepted]
  | noData =>
    constructor
    · simp only [handleRequest, dispatch, predictHandler]
      rw [counterValue_afterRequest_ne _ _ _ _ _ (predictionsKey_ne_reqCounterKey _ _)]
      simp
    · simp [handleRequest, dispatch, predictHandler, JsonResult.accepted]
  | parseError =>
    constructor
    · simp only [handleRequest, dispatch, predictHandler]
      rw [counterValue_afterRequest_ne _ _ _ _ _ (predictionsKey_ne_reqCounterKey _ _)]
      simp
    · simp [handleRequest, dispatch, predictHandler, JsonResult.accepted]

/-- C3 counterexample: starting from the empty registry, two consecutive
GET /metrics requests with nothing in between render different expositions:
the request counter series for (GET, metrics, 200) is absent in the first
render and shows one in the second, because the after-request hook
instruments the first metrics request itself; that hook also adds a latency
observation to the (GET, metrics) histogram, so the metrics call does not
leave histograms unchanged. -/
theorem metrics_request_perturbs_counters :
    (handleRequest emptyRegistry .metrics t0 1).1.body =
      .text (render emptyRegistry) ∧
    (handleRequest (handleRequest emptyRegistry .metrics t0 1).2
        .metrics t0 1).1.body =
      .text (render (handleRequest emptyRegistry .metrics t0 1).2) ∧
    ¬ (lookupCounter (render (handleRequest emptyRegistry .metrics t0 1).2).counters
         ⟨"http_requests_total",
          [("method", "GET"), ("endpoint", "metrics"), ("status", "200")]⟩ =
       lookupCounter (render emptyRegistry).counters
         ⟨"http_requests_total",
          [("method", "GET"), ("endpoint", "metrics"), ("status", "200")]⟩) ∧
    ¬ (histValue (handleRequest emptyRegistry .metrics t0 1).2
         ⟨"http_request_duration_seconds",
          [("method", "GET"), ("endpoint", "metrics")]⟩ =
       histValue emptyRegistry
         ⟨"http_request_duration_seconds",
          [("method", "GET"), ("endpoint", "metrics")]⟩) :=
  ⟨rfl, rfl, by decide, by decide⟩

/-- C3 (amended): the metrics render itself is a pure read — each GET
/metrics response carries the snapshot of the registry as the handler found
it, and the handler leaves the registry unchanged — but the after-request
hook then instruments the metrics request itself, so of two consecutive
GET /metrics requests the second shows the (GET, metrics, 200) request
counter exactly one higher and exactly one more latency observation in the
(GET, metrics) histogram, with every other series identical. -/
theorem metrics_render_pure_hook_delta (reg : Registry) (t1 t2 : DateTime)
    (l1 l2 : Rat) :
    (handleRequest reg .metrics t1 l1).1.body = .text (render reg) ∧
    (dispatch reg .metrics t1).2 = reg ∧
    (handleRequest (handleRequest reg .metrics t1 l1).2 .metrics t2 l2).1.body =
      .text (render (handleRequest reg .metrics t1 l1).2) ∧
    counterValue (handleRequest reg .metrics t1 l1).2
        (reqCounterKey .metrics 200) =
      counterValue reg (reqCounterKey .metrics 200) + 1 ∧
    (∀ k : SeriesKey, k ≠ reqCounterKey .metrics 200 →
      counterValue (handleRequest reg .metrics t1 l1).2 k =
        counterValue reg k) ∧
    histValue (handleRequest reg .metrics t1 l1).2 (latencyKey .metrics) =
      histValue reg (latencyKey .metrics) ++ [l1] ∧
    (∀ k : SeriesKey, k ≠ latencyKey .metrics →
      histValue (handleRequest reg .metrics t1 l1).2 k = histValue reg k) := by
  refine ⟨rfl, rfl, rfl, ?_, ?_, ?_, ?_⟩
  · exact counterValue_afterRequest_self .metrics 200 l1 reg
  · intro k hk
    exact counterValue_afterRequest_ne .metrics 200 l1 reg k hk
  · exact histValue_afterRequest_self .metrics 200 l1 reg
  · intro k hk
    exact histValue_afterRequest_ne .metrics 200 l1 reg k hk

/-- Witness for the amended C3 on the empty registry. -/
theorem metrics_render_pure_hook_delta_witness :
    (handleRequest emptyRegistry .metrics t0 1).1.body =
      .text (render emptyRegistry) ∧
    counterValue (handleRequest emptyRegistry .metrics t0 1).2
      (reqCounterKey .metrics 200) = 1 ∧
    counterValue (handleRequest emptyRegistry .metrics t0 1).2
      predictionsKey = 0 ∧
    histValue (handleRequest emptyRegistry .metrics t0 1).2
      (latencyKey .health) = [] := by
  have h := metrics_render_pure_hook_delta emptyRegistry t0 t0 1 1
  exact ⟨h.1, h.2.2.2.1,
    h.2.2.2.2.1 predictionsKey (by decide),
    h.2.2.2.2.2.2 (latencyKey .health) (by decide)⟩
